import Mathlib

set_option maxRecDepth 20000

/-!
Shallow embedding of the LukiWiki conflict-resolution pipeline
(`src/lukiwiki/conflict_resolver.rs`, `block_decorations.rs`,
`inline_decorations.rs`) from the Universal-Markdown repository.

Strings are modelled as `List Char`.  The Rust code performs ordered
textual rewriting with the `regex` crate; each concrete pattern of the
source is embedded as a term of a small regular-expression language
`Re`, matched by a fuel-bounded backtracking matcher with the same
leftmost-first semantics the `regex` crate exposes for these patterns.
`replace_all` / `replace` / captures are modelled faithfully, including
the mutable counters the source threads through replacement closures.
-/

namespace UMark

/-- Characters of a string literal. -/
def ofStr (s : String) : List Char := s.data

/-- Left brace character (written via its code point to keep it out of string literals). -/
def lbrace : Char := Char.ofNat 123

/-- Right brace character. -/
def rbrace : Char := Char.ofNat 125

/-- Unicode whitespace, as matched by the regex crate's backslash-s class
and by Rust's `char::is_whitespace` (used by `str::trim`). -/
def isWsChar (c : Char) : Bool :=
  c == ' ' || c == '\t' || c == '\n' || c == '\r' ||
  c == Char.ofNat 11 || c == Char.ofNat 12 ||
  c == Char.ofNat 0x85 || c == Char.ofNat 0xA0 || c == Char.ofNat 0x1680 ||
  (0x2000 ≤ c.toNat && c.toNat ≤ 0x200A) ||
  c == Char.ofNat 0x2028 || c == Char.ofNat 0x2029 ||
  c == Char.ofNat 0x202F || c == Char.ofNat 0x205F || c == Char.ofNat 0x3000

/-- The ASCII fragment of the regex word class.  The regex crate's word class
is Unicode-aware by default and ASCII word characters are exactly this set, so
this definition agrees with the source's class on every ASCII character;
theorems that quantify over arbitrary inputs of the word-class patterns are
therefore stated only for ASCII inputs (see the asciiOnly hypothesis of the
identity theorem), where the embedded and the real patterns coincide. -/
def isWordChar (c : Char) : Bool :=
  ('a' ≤ c && c ≤ 'z') || ('A' ≤ c && c ≤ 'Z') || ('0' ≤ c && c ≤ '9') || c == '_'

/-- Whether a string consists of ASCII characters only.  On such strings the
embedded character classes agree with the source's Unicode-aware ones. -/
abbrev asciiOnly (s : List Char) : Prop := ∀ c ∈ s, c.toNat < 128

/-- Characters allowed in an explicit heading id: letters, digits, underscore, hyphen. -/
def isIdChar (c : Char) : Bool := isWordChar c || c == '-'

/-- The slice of a list from index `i` (inclusive) to `j` (exclusive). -/
def listSlice (s : List Char) (i j : Nat) : List Char := (s.drop i).take (j - i)

/-- Whether `pat` occurs as a contiguous substring of `s`. -/
def containsSub (pat s : List Char) : Bool :=
  (List.range (s.length + 1)).any (fun i => pat.isPrefixOf (s.drop i))

/-- Strip leading whitespace (Rust `str::trim_start`). -/
def rustTrimStart (s : List Char) : List Char := s.dropWhile isWsChar

/-- Strip trailing whitespace (Rust `str::trim_end`). -/
def rustTrimEnd (s : List Char) : List Char := (s.reverse.dropWhile isWsChar).reverse

/-- Strip whitespace on both sides (Rust `str::trim`). -/
def rustTrim (s : List Char) : List Char := rustTrimEnd (rustTrimStart s)

/-- Join a list of strings with a separator (Rust `Vec::join`). -/
def joinSep (sep : List Char) : List (List Char) → List Char
  | [] => []
  | [x] => x
  | x :: y :: rest => x ++ sep ++ joinSep sep (y :: rest)

/-! ## A small regular-expression language

Only the features the source patterns use: character classes, literals,
concatenation, prioritized alternation, greedy and lazy `*` and `?`,
capture groups, and the multiline anchors. -/

inductive Re : Type where
  | eps : Re
  | cls : (Char → Bool) → Re
  | lit : List Char → Re
  | seq : Re → Re → Re
  | alt : Re → Re → Re
  | opt : Bool → Re → Re
  | star : Bool → Re → Re
  | grp : Nat → Re → Re
  | bol : Re
  | eol : Re

/-- Capture environment: latest binding for a group number wins. -/
abbrev Caps := List (Nat × List Char)

/-- Record a capture. -/
def setCap (n : Nat) (v : List Char) (caps : Caps) : Caps := (n, v) :: caps

/-- Read a capture; an unset group reads as the empty string, mirroring the
source's `caps.get(n).map_or("", ...)` accesses. -/
def capGet (caps : Caps) (n : Nat) : List Char := (List.lookup n caps).getD []

/-- Backtracking matcher in continuation-passing style.  Alternatives are
tried in priority order (left branch first, greedy repetition extends
first, lazy repetition stops first), which is the match the regex crate's
leftmost-first semantics selects.  `fuel` bounds recursion depth. -/
def matchRe : Nat → Re → List Char → Nat → Caps →
    (Nat → Caps → Option (Nat × Caps)) → Option (Nat × Caps)
  | 0, _, _, _, _, _ => none
  | Nat.succ fuel, re, s, i, caps, k =>
    match re with
    | Re.eps => k i caps
    | Re.cls p =>
      match s.get? i with
      | some c => if p c then k (i + 1) caps else none
      | none => none
    | Re.lit l => if l.isPrefixOf (s.drop i) then k (i + l.length) caps else none
    | Re.seq a b => matchRe fuel a s i caps (fun j caps2 => matchRe fuel b s j caps2 k)
    | Re.alt a b =>
      match matchRe fuel a s i caps k with
      | some r => some r
      | none => matchRe fuel b s i caps k
    | Re.opt g a =>
      if g then
        match matchRe fuel a s i caps k with
        | some r => some r
        | none => k i caps
      else
        match k i caps with
        | some r => some r
        | none => matchRe fuel a s i caps k
    | Re.star g a =>
      if g then
        match matchRe fuel a s i caps
            (fun j caps2 => if i < j then matchRe fuel (Re.star g a) s j caps2 k else none) with
        | some r => some r
        | none => k i caps
      else
        match k i caps with
        | some r => some r
        | none => matchRe fuel a s i caps
            (fun j caps2 => if i < j then matchRe fuel (Re.star g a) s j caps2 k else none)
    | Re.grp n a => matchRe fuel a s i caps (fun j caps2 => k j (setCap n (listSlice s i j) caps2))
    | Re.bol => if i == 0 || s.get? (i - 1) == some '\n' then k i caps else none
    | Re.eol => if i == s.length || s.get? i == some '\n' then k i caps else none

/-- Fuel bound for a whole-string match attempt: recursion depth is at most
pattern size times input length for the source's patterns. -/
def mFuel (s : List Char) : Nat := (s.length + 2) * 200 + 400

/-- Leftmost match at or after position `i`: `(start, end, captures)`. -/
def findFrom : Nat → Re → List Char → Nat → Option (Nat × Nat × Caps)
  | 0, _, _, _ => none
  | Nat.succ fuel, re, s, i =>
    match matchRe (mFuel s) re s i [] (fun j caps => some (j, caps)) with
    | some (j, caps) => some (i, j, caps)
    | none => if i < s.length then findFrom fuel re s (i + 1) else none

/-- Leftmost match in the whole string (Rust `Regex::captures` / `find`). -/
def findIn (re : Re) (s : List Char) : Option (Nat × Nat × Caps) := findFrom (s.length + 1) re s 0

/-- `replace_all` with a stateful replacement closure, scanning successive
non-overlapping leftmost matches of the original string, exactly as the
source's `Regex::replace_all` with a `FnMut` closure does. -/
def replaceAllStAux {σ : Type} (re : Re) (f : σ → Caps → σ × List Char) (s : List Char) :
    Nat → σ → Nat → σ × List Char
  | 0, st, i => (st, s.drop i)
  | Nat.succ fuel, st, i =>
    match findFrom (s.length + 1) re s i with
    | none => (st, s.drop i)
    | some (m, e, caps) =>
      let fr := f st caps
      if m < e then
        let rest := replaceAllStAux re f s fuel fr.1 e
        (rest.1, listSlice s i m ++ fr.2 ++ rest.2)
      else
        let rest := replaceAllStAux re f s fuel fr.1 (m + 1)
        (rest.1, listSlice s i m ++ fr.2 ++ listSlice s m (m + 1) ++ rest.2)

/-- Stateful `replace_all` over the whole string. -/
def replaceAllSt {σ : Type} (re : Re) (f : σ → Caps → σ × List Char) (st : σ)
    (s : List Char) : σ × List Char :=
  replaceAllStAux re f s (s.length + 1) st 0

/-- Pure `replace_all`. -/
def replaceAllPure (re : Re) (f : Caps → List Char) (s : List Char) : List Char :=
  (replaceAllSt re (fun (u : Unit) caps => (u, f caps)) () s).2

/-- Replace only the leftmost match (Rust `Regex::replace`). -/
def replaceFirst (re : Re) (f : Caps → List Char) (s : List Char) : List Char :=
  match findIn re s with
  | none => s
  | some (m, e, caps) => listSlice s 0 m ++ f caps ++ s.drop e

/-- When the pattern has no match, stateful `replace_all` is the identity. -/
theorem replaceAllStAux_none {σ : Type} (re : Re) (f : σ → Caps → σ × List Char)
    (s : List Char) (fuel : Nat) (st : σ) (h : findFrom (s.length + 1) re s 0 = none) :
    replaceAllStAux re f s (fuel + 1) st 0 = (st, s) := by
  simp [replaceAllStAux, h]

/-- When the pattern has no match, `replace_all` is the identity. -/
theorem replaceAllSt_none {σ : Type} (re : Re) (f : σ → Caps → σ × List Char) (st : σ)
    (s : List Char) (h : findIn re s = none) : replaceAllSt re f st s = (st, s) := by
  have h' : findFrom (s.length + 1) re s 0 = none := h
  simpa [replaceAllSt] using replaceAllStAux_none (σ := σ) re f s s.length st h'

/-- When the pattern has no match, pure `replace_all` is the identity. -/
theorem replaceAllPure_none (re : Re) (f : Caps → List Char) (s : List Char)
    (h : findIn re s = none) : replaceAllPure re f s = s := by
  simp [replaceAllPure, replaceAllSt_none _ _ _ _ h]

/-! ## Regex construction helpers -/

/-- Single-character literal class. -/
def reChar (c : Char) : Re := Re.cls (fun x => x == c)

/-- Literal string pattern. -/
def reStr (s : String) : Re := Re.lit s.data

/-- Concatenation of a list of patterns. -/
def reCat (l : List Re) : Re := l.foldr Re.seq Re.eps

/-- One-or-more repetition with the given greediness. -/
def rePlus (g : Bool) (r : Re) : Re := Re.seq r (Re.star g r)

/-- Dot: any character except newline. -/
def reDot : Re := Re.cls (fun c => c != '\n')

/-- Any character at all (the source's `[\s\S]`). -/
def reAny : Re := Re.cls (fun _ => true)

/-- Whitespace class. -/
def reWs : Re := Re.cls isWsChar

/-- Word-character class. -/
def reWord : Re := Re.cls isWordChar

/-- Greedy bounded repetition, up to `n` further copies of `r`. -/
def reUpTo : Nat → Re → Re
  | 0, _ => Re.eps
  | n + 1, r => Re.opt true (Re.seq r (reUpTo n r))

/-! ## Base64 (the `base64` crate's STANDARD engine) and UTF-8 -/

/-- The standard base64 alphabet. -/
def b64Alphabet : List Char :=
  ofStr "ABCDEFGHIJKLMNOPQRSTUVWXYZabcdefghijklmnopqrstuvwxyz0123456789+/"

/-- The alphabet character for a 6-bit value. -/
def b64Char (n : Nat) : Char := b64Alphabet.getD n 'A'

/-- Standard base64 encoding with padding (`general_purpose::STANDARD.encode`). -/
def base64Encode : List Nat → List Char
  | [] => []
  | [a] => [b64Char (a / 4), b64Char (a % 4 * 16), '=', '=']
  | [a, b] => [b64Char (a / 4), b64Char (a % 4 * 16 + b / 16), b64Char (b % 16 * 4), '=']
  | a :: b :: c :: rest =>
    b64Char (a / 4) :: b64Char (a % 4 * 16 + b / 16) ::
      b64Char (b % 16 * 4 + c / 64) :: b64Char (c % 64) :: base64Encode rest

/-- 6-bit value of an alphabet character, `none` outside the alphabet. -/
def b64Val (c : Char) : Option Nat :=
  if 'A' ≤ c && c ≤ 'Z' then some (c.toNat - 65)
  else if 'a' ≤ c && c ≤ 'z' then some (c.toNat - 97 + 26)
  else if '0' ≤ c && c ≤ '9' then some (c.toNat - 48 + 52)
  else if c == '+' then some 62
  else if c == '/' then some 63
  else none

/-- Standard base64 decoding (`general_purpose::STANDARD.decode`): requires
canonical padding, a length that is a multiple of four, alphabet characters
only, and zero trailing bits. -/
def base64Decode : List Char → Option (List Nat)
  | [] => some []
  | a :: b :: c :: d :: rest =>
    match b64Val a, b64Val b with
    | some va, some vb =>
      if rest = [] && c == '=' && d == '=' then
        if vb % 16 = 0 then some [va * 4 + vb / 16] else none
      else if rest = [] && d == '=' then
        match b64Val c with
        | some vc => if vc % 4 = 0 then some [va * 4 + vb / 16, vb % 16 * 16 + vc / 4] else none
        | none => none
      else
        match b64Val c, b64Val d, base64Decode rest with
        | some vc, some vd, some tail =>
          some ((va * 4 + vb / 16) :: (vb % 16 * 16 + vc / 4) :: (vc % 4 * 64 + vd) :: tail)
        | _, _, _ => none
    | _, _ => none
  | _ => none

/-- UTF-8 encoding of one character. -/
def utf8Bytes (c : Char) : List Nat :=
  let n := c.toNat
  if n < 0x80 then [n]
  else if n < 0x800 then [0xC0 + n / 64, 0x80 + n % 64]
  else if n < 0x10000 then [0xE0 + n / 4096, 0x80 + n / 64 % 64, 0x80 + n % 64]
  else [0xF0 + n / 262144, 0x80 + n / 4096 % 64, 0x80 + n / 64 % 64, 0x80 + n % 64]

/-- UTF-8 encoding of a string (Rust `str::as_bytes`). -/
def strBytes (s : List Char) : List Nat := s.foldr (fun c acc => utf8Bytes c ++ acc) []

/-- Whether a byte is a UTF-8 continuation byte. -/
def isCont (b : Nat) : Bool := 0x80 ≤ b && b < 0xC0

/-- Strict UTF-8 decoding (Rust `String::from_utf8`), fuel-indexed. -/
def utf8DecodeAux : Nat → List Nat → Option (List Char)
  | 0, [] => some []
  | 0, _ => none
  | _ + 1, [] => some []
  | fuel + 1, b :: rest =>
    if b < 0x80 then
      match utf8DecodeAux fuel rest with
      | some cs => some (Char.ofNat b :: cs)
      | none => none
    else if b < 0xC2 then none
    else if b < 0xE0 then
      match rest with
      | b2 :: r =>
        if isCont b2 then
          match utf8DecodeAux fuel r with
          | some cs => some (Char.ofNat ((b - 0xC0) * 64 + (b2 - 0x80)) :: cs)
          | none => none
        else none
      | [] => none
    else if b < 0xF0 then
      match rest with
      | b2 :: b3 :: r =>
        if isCont b2 && isCont b3 &&
            (b != 0xE0 || 0xA0 ≤ b2) && (b != 0xED || b2 < 0xA0) then
          match utf8DecodeAux fuel r with
          | some cs =>
            some (Char.ofNat ((b - 0xE0) * 4096 + (b2 - 0x80) * 64 + (b3 - 0x80)) :: cs)
          | none => none
        else none
      | _ => none
    else if b < 0xF5 then
      match rest with
      | b2 :: b3 :: b4 :: r =>
        if isCont b2 && isCont b3 && isCont b4 &&
            (b != 0xF0 || 0x90 ≤ b2) && (b != 0xF4 || b2 < 0x90) then
          match utf8DecodeAux fuel r with
          | some cs =>
            some (Char.ofNat ((b - 0xF0) * 262144 + (b2 - 0x80) * 4096 +
              (b3 - 0x80) * 64 + (b4 - 0x80)) :: cs)
          | none => none
        else none
      | _ => none
    else none

/-- Strict UTF-8 decoding of a byte list. -/
def utf8Decode (l : List Nat) : Option (List Char) := utf8DecodeAux l.length l

/-! ## The source's patterns (`conflict_resolver.rs`) -/

/-- CUSTOM_HEADER_ID: a heading line carrying an explicit id suffix. -/
def customHeaderRe : Re := reCat [Re.bol,
  Re.grp 1 (Re.seq (reChar '#') (reUpTo 5 (reChar '#'))),
  rePlus true reWs,
  Re.grp 2 (rePlus false reDot),
  rePlus true reWs,
  Re.lit [lbrace, '#'],
  Re.grp 3 (rePlus true (Re.cls isIdChar)),
  Re.lit [rbrace],
  Re.star true reWs, Re.eol]

/-- LUKIWIKI_BLOCKQUOTE: a line-anchored span opened by a greater-than sign and
closed by a less-than sign. -/
def lukiwikiBlockquoteRe : Re := reCat [Re.bol, reChar '>', Re.star true reWs,
  Re.grp 1 (rePlus false reDot), Re.star true reWs, reChar '<', Re.star true reWs, Re.eol]

/-- COLOR-prefixed line. -/
def colorPrefixRe : Re := reCat [Re.bol,
  Re.grp 1 (reCat [reStr "COLOR(", Re.star true (Re.cls (fun c => c != ')')), reStr "):",
    Re.star true reWs, rePlus true reDot]),
  Re.eol]

/-- SIZE-prefixed line. -/
def sizePrefixRe : Re := reCat [Re.bol,
  Re.grp 1 (reCat [reStr "SIZE(", rePlus true (Re.cls (fun c => c != ')')), reStr "):",
    Re.star true reWs, rePlus true reDot]),
  Re.eol]

/-- Alignment-prefixed line. -/
def alignPrefixRe : Re := reCat [Re.bol,
  Re.grp 1 (reCat [Re.grp 2 (Re.alt (reStr "RIGHT") (Re.alt (reStr "CENTER") (reStr "LEFT"))),
    reStr ":", Re.star true reWs, rePlus true reDot]),
  Re.eol]

/-- Inline plugin invocation: ampersand, name, parenthesized args, braced body
balancing exactly one nested brace level, semicolon. -/
def inlinePluginRe : Re := reCat [reChar '&',
  Re.grp 1 (rePlus true reWord), reChar '(',
  Re.grp 2 (Re.star true (Re.cls (fun c => c != ')'))), reChar ')',
  Re.lit [lbrace],
  Re.grp 3 (Re.star true (Re.alt (Re.cls (fun c => c != lbrace && c != rbrace))
    (reCat [Re.lit [lbrace], Re.star true (Re.cls (fun c => c != rbrace)), Re.lit [rbrace]]))),
  Re.lit [rbrace, ';']]

/-- Multiline block plugin: at-sign form with a double-braced, non-greedy body. -/
def blockPluginMultiRe : Re := reCat [reChar '@',
  Re.grp 1 (rePlus true reWord), reChar '(',
  Re.grp 2 (Re.star true (Re.cls (fun c => c != ')'))), reChar ')',
  Re.lit [lbrace, lbrace],
  Re.grp 3 (Re.star false reAny),
  Re.lit [rbrace, rbrace]]

/-- Single-line block plugin: at-sign form with a single-braced body. -/
def blockPluginSingleRe : Re := reCat [reChar '@',
  Re.grp 1 (rePlus true reWord), reChar '(',
  Re.grp 2 (Re.star true (Re.cls (fun c => c != ')'))), reChar ')',
  Re.lit [lbrace],
  Re.grp 3 (Re.star true (Re.cls (fun c => c != rbrace))),
  Re.lit [rbrace]]

/-- Digits one to six. -/
def isDig16 (c : Char) : Bool := '1' ≤ c && c ≤ '6'

/-- Rendered heading element, as the post-pass expects it. -/
def headerRe : Re := reCat [reStr "<h", Re.grp 1 (Re.cls isDig16), reStr ">",
  Re.grp 2 (rePlus true (Re.cls (fun c => c != '<'))), reStr "</h",
  Re.grp 3 (Re.cls isDig16), reStr ">"]

/-- Blockquote placeholder token. -/
def bqMarkerRe : Re := reCat [Re.lit (ofStr "\x7b\x7bLUKIWIKI_BLOCKQUOTE:"),
  Re.grp 1 (rePlus false reDot),
  Re.lit (ofStr ":LUKIWIKI_BLOCKQUOTE\x7d\x7d")]

/-- Block-decoration placeholder token, required to sit inside a paragraph element. -/
def decoMarkerRe : Re := reCat [Re.lit (ofStr "<p>\x7b\x7bBLOCK_DECORATION:"),
  Re.grp 1 (rePlus false reDot), Re.lit (ofStr ":BLOCK_DECORATION\x7d\x7d</p>")]

/-- Inline-plugin placeholder token. -/
def inlineMarkerRe : Re := reCat [Re.lit (ofStr "\x7b\x7bINLINE_PLUGIN:"),
  Re.grp 1 (rePlus true reWord), reStr ":",
  Re.grp 2 (Re.star true (Re.cls (fun c => c != ':'))), reStr ":",
  Re.grp 3 (Re.star true (Re.cls (fun c => c != ':'))),
  Re.lit (ofStr ":INLINE_PLUGIN\x7d\x7d")]

/-- Block-plugin placeholder token. -/
def blockMarkerRe : Re := reCat [Re.lit (ofStr "\x7b\x7bBLOCK_PLUGIN:"),
  Re.grp 1 (rePlus true reWord), reStr ":",
  Re.grp 2 (Re.star true (Re.cls (fun c => c != ':'))), reStr ":",
  Re.grp 3 (Re.star true (Re.cls (fun c => c != ':'))),
  Re.lit (ofStr ":BLOCK_PLUGIN\x7d\x7d")]

/-- Paragraph-wrapped block-plugin container. -/
def wrappedPluginRe : Re := reCat [reStr "<p>", Re.star true reWs,
  Re.grp 1 (reCat [reStr "<div class=\"plugin-",
    rePlus true (Re.cls (fun c => c != '"')), reStr "\"",
    Re.star true (Re.cls (fun c => c != '>')), reStr ">",
    Re.star false reDot, reStr "</div>"]),
  Re.star true reWs, reStr "</p>"]

/-! ## Header id map and the conflict-resolution pipeline -/

/-- Map from heading counter values to explicit heading ids
(the source's `HeaderIdMap` over a `HashMap<usize, String>`; the counter is
strictly increasing so keys are unique and an association list is faithful). -/
structure HeaderIdMap where
  ids : List (Nat × List Char)
deriving DecidableEq

/-- Lookup in the header id map (Rust `HashMap::get`). -/
def HeaderIdMap.find (m : HeaderIdMap) (n : Nat) : Option (List Char) := List.lookup n m.ids

/-- The empty header id map. -/
def emptyHeaderMap : HeaderIdMap := ⟨[]⟩

/-- Replacement closure of the header-id extraction pass: bump the counter,
record the explicit id under the current counter value, and drop the id
suffix from the heading line. -/
def headerExtractRepl (st : Nat × List (Nat × List Char)) (caps : Caps) :
    (Nat × List (Nat × List Char)) × List Char :=
  let n := st.1 + 1
  ((n, st.2 ++ [(n, capGet caps 3)]), capGet caps 1 ++ [' '] ++ capGet caps 2)

/-- Blockquote placeholder text for a content string. -/
def bqToken (content : List Char) : List Char :=
  ofStr "\x7b\x7bLUKIWIKI_BLOCKQUOTE:" ++ content ++ ofStr ":LUKIWIKI_BLOCKQUOTE\x7d\x7d"

/-- Block-decoration placeholder text for a whole decorated line. -/
def decoToken (line : List Char) : List Char :=
  ofStr "\x7b\x7bBLOCK_DECORATION:" ++ line ++ ofStr ":BLOCK_DECORATION\x7d\x7d"

/-- Inline-plugin placeholder: name and args carried verbatim, the content
field base64-encoded from its UTF-8 bytes. -/
def inlinePluginToken (fname args content : List Char) : List Char :=
  ofStr "\x7b\x7bINLINE_PLUGIN:" ++ fname ++ ofStr ":" ++ args ++ ofStr ":" ++
    base64Encode (strBytes content) ++ ofStr ":INLINE_PLUGIN\x7d\x7d"

/-- Block-plugin placeholder: name and args carried verbatim, the content
field base64-encoded from its UTF-8 bytes. -/
def blockPluginToken (fname args content : List Char) : List Char :=
  ofStr "\x7b\x7bBLOCK_PLUGIN:" ++ fname ++ ofStr ":" ++ args ++ ofStr ":" ++
    base64Encode (strBytes content) ++ ofStr ":BLOCK_PLUGIN\x7d\x7d"

/-- Pre-process input to resolve conflicts before Markdown parsing
(`preprocess_conflicts` of `conflict_resolver.rs`): extract explicit heading
ids, then wrap wiki blockquotes, block-decoration lines, inline plugins and
block plugins in placeholder tokens, in that order. -/
def preprocess_conflicts (input : List Char) : List Char × HeaderIdMap :=
  let p1 := replaceAllSt customHeaderRe headerExtractRepl (0, []) input
  let r2 := replaceAllPure lukiwikiBlockquoteRe (fun caps => bqToken (capGet caps 1)) p1.2
  let r3 := replaceAllPure colorPrefixRe (fun caps => decoToken (capGet caps 1)) r2
  let r4 := replaceAllPure sizePrefixRe (fun caps => decoToken (capGet caps 1)) r3
  let r5 := replaceAllPure alignPrefixRe (fun caps => decoToken (capGet caps 1)) r4
  let r6 := replaceAllPure inlinePluginRe
    (fun caps => inlinePluginToken (capGet caps 1) (capGet caps 2) (capGet caps 3)) r5
  let r7 := replaceAllPure blockPluginMultiRe
    (fun caps => blockPluginToken (capGet caps 1) (capGet caps 2) (capGet caps 3)) r6
  let r8 := replaceAllPure blockPluginSingleRe
    (fun caps => blockPluginToken (capGet caps 1) (capGet caps 2) (capGet caps 3)) r7
  (r8, ⟨p1.1.2⟩)

/-! ## Block decorations (`block_decorations.rs`) -/

/-- Block decoration attributes. -/
structure BlockDecoration where
  fg_color : Option (List Char) := none
  bg_color : Option (List Char) := none
  font_size : Option (List Char) := none
  text_align : Option (List Char) := none
  truncate : Bool := false
  vertical_align : Option (List Char) := none
deriving DecidableEq

/-- The CSS classes a decoration contributes, in the source's fixed push
order: alignment, truncate, vertical alignment, size, foreground, background. -/
def BlockDecoration.classList (d : BlockDecoration) : List (List Char) :=
  (match d.text_align with | some a => [a] | none => []) ++
  (if d.truncate then [ofStr "text-truncate"] else []) ++
  (match d.vertical_align with | some v => [v] | none => []) ++
  (match d.font_size with
   | some s => if (ofStr "fs-").isPrefixOf s then [s] else []
   | none => []) ++
  (match d.fg_color with
   | some f => if (ofStr "text-").isPrefixOf f then [f] else []
   | none => []) ++
  (match d.bg_color with
   | some b => if (ofStr "bg-").isPrefixOf b then [b] else []
   | none => [])

/-- The inline styles a decoration contributes, in the same relative order
(size, foreground, background). -/
def BlockDecoration.styleList (d : BlockDecoration) : List (List Char) :=
  (match d.font_size with
   | some s => if (ofStr "fs-").isPrefixOf s then [] else [ofStr "font-size: " ++ s]
   | none => []) ++
  (match d.fg_color with
   | some f => if (ofStr "text-").isPrefixOf f then [] else [ofStr "color: " ++ f]
   | none => []) ++
  (match d.bg_color with
   | some b => if (ofStr "bg-").isPrefixOf b then [] else [ofStr "background-color: " ++ b]
   | none => [])

/-- Convert a decoration to its optional class and style attributes. -/
def BlockDecoration.to_html_attrs (d : BlockDecoration) : Option (List Char) × Option (List Char) :=
  (if d.classList = [] then none
    else some (ofStr "class=\"" ++ joinSep (ofStr " ") d.classList ++ ofStr "\""),
   if d.styleList = [] then none
    else some (ofStr "style=\"" ++ joinSep (ofStr "; ") d.styleList ++ ofStr "\""))

/-- Map a font size value to a Bootstrap class or an inline-style value. -/
def map_font_size (value : List Char) : List Char :=
  if containsSub (ofStr "rem") value || containsSub (ofStr "em") value ||
      containsSub (ofStr "px") value then value
  else if value = ofStr "2.5" then ofStr "fs-1"
  else if value = ofStr "2" ∨ value = ofStr "2.0" then ofStr "fs-2"
  else if value = ofStr "1.75" then ofStr "fs-3"
  else if value = ofStr "1.5" then ofStr "fs-4"
  else if value = ofStr "1.25" then ofStr "fs-5"
  else if value = ofStr "0.875" then ofStr "fs-6"
  else value ++ ofStr "rem"

/-- The Bootstrap theme color names the source recognizes. -/
def bootstrapColors : List (List Char) :=
  [ofStr "primary", ofStr "secondary", ofStr "success", ofStr "danger",
   ofStr "warning", ofStr "info", ofStr "light", ofStr "dark",
   ofStr "body", ofStr "body-secondary", ofStr "body-tertiary", ofStr "body-emphasis",
   ofStr "primary-subtle", ofStr "secondary-subtle", ofStr "success-subtle",
   ofStr "danger-subtle", ofStr "warning-subtle", ofStr "info-subtle",
   ofStr "light-subtle", ofStr "dark-subtle",
   ofStr "primary-emphasis", ofStr "secondary-emphasis", ofStr "success-emphasis",
   ofStr "danger-emphasis", ofStr "warning-emphasis", ofStr "info-emphasis",
   ofStr "light-emphasis", ofStr "dark-emphasis"]

/-- Map a color value to a Bootstrap class or an inline-style value; empty or
`inherit` values are dropped entirely. -/
def map_color (value : List Char) (is_background : Bool) : Option (List Char) :=
  let trimmed := rustTrim value
  if trimmed = [] ∨ trimmed = ofStr "inherit" then none
  else if bootstrapColors.any
      (fun color => trimmed == color || (color ++ ['-']).isPrefixOf trimmed) then
    some ((if is_background then ofStr "bg-" else ofStr "text-") ++ trimmed)
  else some trimmed

/-- Map an alignment keyword to its Bootstrap class. -/
def map_text_align (value : List Char) : List Char :=
  let u := value.map Char.toUpper
  if u = ofStr "RIGHT" then ofStr "text-end"
  else if u = ofStr "CENTER" then ofStr "text-center"
  else if u = ofStr "LEFT" then ofStr "text-start"
  else if u = ofStr "JUSTIFY" then ofStr "text-justify"
  else ofStr "text-start"

/-- Map a vertical-alignment keyword to its Bootstrap class. -/
def map_vertical_align (value : List Char) : List Char :=
  let u := value.map Char.toUpper
  if u = ofStr "TOP" then ofStr "align-top"
  else if u = ofStr "MIDDLE" then ofStr "align-middle"
  else if u = ofStr "BOTTOM" then ofStr "align-bottom"
  else if u = ofStr "BASELINE" then ofStr "align-baseline"
  else ofStr "align-baseline"

/-- SIZE_EXTRACT pattern. -/
def sizeExtractRe : Re :=
  reCat [reStr "SIZE(", Re.grp 1 (rePlus true (Re.cls (fun c => c != ')'))), reStr "):"]

/-- COLOR_EXTRACT pattern with its lazy component groups. -/
def colorExtractRe : Re := reCat [reStr "COLOR(",
  Re.grp 1 (Re.star false (Re.cls (fun c => c != ',' && c != ')'))),
  Re.opt true (Re.seq (reChar ',') (Re.grp 2 (Re.star false (Re.cls (fun c => c != ')'))))),
  reStr "):"]

/-- TRUNCATE_EXTRACT pattern. -/
def truncateExtractRe : Re := Re.seq (Re.grp 1 (reStr "TRUNCATE")) (reStr ":")

/-- VALIGN_EXTRACT pattern. -/
def valignExtractRe : Re :=
  Re.seq (Re.grp 1 (Re.alt (reStr "TOP")
    (Re.alt (reStr "MIDDLE") (Re.alt (reStr "BOTTOM") (reStr "BASELINE"))))) (reStr ":")

/-- ALIGN_EXTRACT pattern. -/
def alignExtractRe : Re :=
  Re.seq (Re.grp 1 (Re.alt (reStr "JUSTIFY")
    (Re.alt (reStr "RIGHT") (Re.alt (reStr "CENTER") (reStr "LEFT"))))) (reStr ":")

/-- Parse all decoration prefixes from a line, consuming each matched prefix
up to its match end, truncate by first-occurrence removal, and return the
decoration record together with the trimmed remaining content. -/
def parse_prefixes (line : List Char) : BlockDecoration × List Char :=
  let d0 : BlockDecoration := {}
  let step1 := match findIn sizeExtractRe line with
    | some (_, e, caps) =>
      ({ d0 with font_size := some (map_font_size (capGet caps 1)) }, line.drop e)
    | none => (d0, line)
  let step2 := match findIn colorExtractRe step1.2 with
    | some (_, e, caps) =>
      ({ step1.1 with fg_color := map_color (capGet caps 1) false,
                      bg_color := map_color (capGet caps 2) true }, step1.2.drop e)
    | none => step1
  let step3 :=
    if (findIn truncateExtractRe step2.2).isSome then
      ({ step2.1 with truncate := true }, replaceFirst truncateExtractRe (fun _ => []) step2.2)
    else step2
  let step4 := match findIn valignExtractRe step3.2 with
    | some (_, e, caps) =>
      ({ step3.1 with vertical_align := some (map_vertical_align (capGet caps 1)) },
        step3.2.drop e)
    | none => step3
  let step5 := match findIn alignExtractRe step4.2 with
    | some (_, e, caps) =>
      ({ step4.1 with text_align := some (map_text_align (capGet caps 1)) }, step4.2.drop e)
    | none => step4
  (step5.1, rustTrim step5.2)

/-- Split into physical lines (Rust `str::lines`): split on newline, strip a
trailing carriage return per line, no empty final line for a trailing newline. -/
def splitOnNl : List Char → List (List Char)
  | [] => [[]]
  | c :: rest =>
    if c = '\n' then [] :: splitOnNl rest
    else
      match splitOnNl rest with
      | [] => [[c]]
      | l :: ls => (c :: l) :: ls

/-- Strip one trailing carriage return. -/
def stripCr (l : List Char) : List Char :=
  match l.getLast? with
  | some '\r' => l.dropLast
  | _ => l

/-- Rust `str::lines`: a carriage return is stripped only from a line that was
terminated by a newline (a carriage-return-line-feed ending); a final line
without a trailing newline keeps a trailing carriage return. -/
def rustLines (s : List Char) : List (List Char) :=
  if s = [] then []
  else
    let parts := splitOnNl s
    if parts.getLast? = some [] then parts.dropLast.map stripCr
    else parts.dropLast.map stripCr ++ [parts.getLast?.getD []]

/-- Whether a line starts with one of the recognized decoration prefixes. -/
def isDecoLine (line : List Char) : Bool :=
  (ofStr "SIZE(").isPrefixOf line || (ofStr "COLOR(").isPrefixOf line ||
  (ofStr "TRUNCATE:").isPrefixOf line || (ofStr "TOP:").isPrefixOf line ||
  (ofStr "MIDDLE:").isPrefixOf line || (ofStr "BOTTOM:").isPrefixOf line ||
  (ofStr "BASELINE:").isPrefixOf line || (ofStr "JUSTIFY:").isPrefixOf line ||
  (ofStr "RIGHT:").isPrefixOf line || (ofStr "CENTER:").isPrefixOf line ||
  (ofStr "LEFT:").isPrefixOf line

/-- Decorate one physical line: parse the prefixes and emit a paragraph with
the computed attributes, or pass the line through. -/
def decorateLine (line : List Char) : List Char :=
  if isDecoLine line then
    let pc := parse_prefixes line
    let attrs := pc.1.to_html_attrs
    let attrList := (match attrs.1 with | some c => [c] | none => []) ++
      (match attrs.2 with | some st => [st] | none => [])
    if attrList = [] then ofStr "<p>" ++ pc.2 ++ ofStr "</p>\n"
    else ofStr "<p " ++ joinSep (ofStr " ") attrList ++ ofStr ">" ++ pc.2 ++ ofStr "</p>\n"
  else line ++ ['\n']

/-- Apply block decoration prefixes to content
(`apply_block_decorations` of `block_decorations.rs`). -/
def apply_block_decorations (html : List Char) : List Char :=
  rustTrimEnd ((rustLines html).foldr (fun l acc => decorateLine l ++ acc) [])

/-! ## Post-processing (`postprocess_conflicts` of `conflict_resolver.rs`) -/

/-- Escape angle brackets only, preserving ampersands verbatim (the source's
two chained `str::replace` calls on plugin content). -/
def escapeLtGt (s : List Char) : List Char :=
  s.foldr (fun c acc =>
    (if c == '<' then ofStr "&lt;" else if c == '>' then ofStr "&gt;" else [c]) ++ acc) []

/-- The `html_escape` crate's double-quoted-attribute encoding: ampersand and
double quote become entities. -/
def encode_double_quoted_attribute (s : List Char) : List Char :=
  s.foldr (fun c acc =>
    (if c == '&' then ofStr "&amp;" else if c == '"' then ofStr "&quot;" else [c]) ++ acc) []

/-- Decode a plugin token's content field: base64, then UTF-8; on any failure
fall back to the raw encoded string (the source's `.ok().and_then(...).unwrap_or_else(...)`). -/
def decodePluginContent (enc : List Char) : List Char :=
  match (base64Decode enc).bind utf8Decode with
  | some cs => cs
  | none => enc

/-- The restored inline-plugin container element. -/
def inlinePluginHtml (fname args enc : List Char) : List Char :=
  ofStr "<span class=\"plugin-" ++ fname ++ ofStr "\" data-args=\"" ++
    encode_double_quoted_attribute args ++ ofStr "\">" ++
    escapeLtGt (decodePluginContent enc) ++ ofStr "</span>"

/-- The restored block-plugin container element. -/
def blockPluginHtml (fname args enc : List Char) : List Char :=
  ofStr "<div class=\"plugin-" ++ fname ++ ofStr "\" data-args=\"" ++
    encode_double_quoted_attribute args ++ ofStr "\">" ++
    escapeLtGt (decodePluginContent enc) ++ ofStr "</div>"

/-- Replacement closure of the heading-anchor pass: bump the document-order
heading counter, use the recorded explicit id for that counter value or the
positional fallback, and prepend the anchor element. -/
def headerAnchorRepl (m : HeaderIdMap) (n : Nat) (caps : Caps) : Nat × List Char :=
  let n' := n + 1
  let anchorId := match m.find n' with
    | some custom => custom
    | none => ofStr "heading-" ++ (toString n').data
  (n', ofStr "<h" ++ capGet caps 1 ++ ofStr "><a href=\"#" ++ anchorId ++
    ofStr "\" aria-hidden=\"true\" class=\"anchor\" id=\"" ++ anchorId ++ ofStr "\"></a>" ++
    capGet caps 2 ++ ofStr "</h" ++ capGet caps 3 ++ ofStr ">")

/-- Post-process HTML to restore LukiWiki-specific syntax and apply custom
header ids (`postprocess_conflicts` of `conflict_resolver.rs`). -/
def postprocess_conflicts (html : List Char) (header_map : HeaderIdMap) : List Char :=
  let r1 := (replaceAllSt headerRe (fun n caps => headerAnchorRepl header_map n caps) 0 html).2
  let r2 := replaceAllPure bqMarkerRe (fun caps =>
    ofStr "<blockquote class=\"lukiwiki\">" ++ capGet caps 1 ++ ofStr "</blockquote>") r1
  let r3 := replaceAllPure decoMarkerRe (fun caps => apply_block_decorations (capGet caps 1)) r2
  let r4 := replaceAllPure inlineMarkerRe
    (fun caps => inlinePluginHtml (capGet caps 1) (capGet caps 2) (capGet caps 3)) r3
  let r5 := replaceAllPure blockMarkerRe
    (fun caps => blockPluginHtml (capGet caps 1) (capGet caps 2) (capGet caps 3)) r4
  let r6 := replaceAllPure wrappedPluginRe (fun caps => capGet caps 1) r5
  r6

/-! ## Inline decorations (`inline_decorations.rs`) -/

/-- INLINE_COLOR pattern. -/
def inlineColorRe : Re := reCat [reStr "&color(",
  Re.grp 1 (Re.star false (Re.cls (fun c => c != ',' && c != ')'))),
  Re.opt true (Re.seq (reChar ',') (Re.grp 2 (Re.star false (Re.cls (fun c => c != ')'))))),
  reStr ")", Re.lit [lbrace],
  Re.grp 3 (rePlus false (Re.cls (fun c => c != rbrace))),
  Re.lit [rbrace, ';']]

/-- INLINE_SIZE pattern. -/
def inlineSizeRe : Re := reCat [reStr "&size(",
  Re.grp 1 (rePlus false (Re.cls (fun c => c != ')'))), reStr ")", Re.lit [lbrace],
  Re.grp 2 (rePlus false (Re.cls (fun c => c != rbrace))), Re.lit [rbrace, ';']]

/-- INLINE_SUP pattern. -/
def inlineSupRe : Re :=
  reCat [reStr "&sup(", Re.grp 1 (rePlus false (Re.cls (fun c => c != ')'))), reStr ");"]

/-- INLINE_SUB pattern. -/
def inlineSubRe : Re :=
  reCat [reStr "&sub(", Re.grp 1 (rePlus false (Re.cls (fun c => c != ')'))), reStr ");"]

/-- INLINE_LANG pattern. -/
def inlineLangRe : Re := reCat [reStr "&lang(",
  Re.grp 1 (rePlus false (Re.cls (fun c => c != ')'))), reStr ")", Re.lit [lbrace],
  Re.grp 2 (rePlus false (Re.cls (fun c => c != rbrace))), Re.lit [rbrace, ';']]

/-- INLINE_ABBR pattern. -/
def inlineAbbrRe : Re := reCat [reStr "&abbr(",
  Re.grp 1 (rePlus false (Re.cls (fun c => c != ')'))), reStr ")", Re.lit [lbrace],
  Re.grp 2 (rePlus false (Re.cls (fun c => c != rbrace))), Re.lit [rbrace, ';']]

/-- Replacement for the inline color form: trimmed components, empty or
`inherit` components dropped; with no styles left the bare text is emitted,
and the matched terminating semicolon is consumed either way. -/
def inlineColorRepl (caps : Caps) : List Char :=
  let fg := rustTrim (capGet caps 1)
  let bg := rustTrim (capGet caps 2)
  let text := capGet caps 3
  let styles := (if fg ≠ [] ∧ fg ≠ ofStr "inherit" then [ofStr "color: " ++ fg] else []) ++
    (if bg ≠ [] ∧ bg ≠ ofStr "inherit" then [ofStr "background-color: " ++ bg] else [])
  if styles = [] then text
  else ofStr "<span style=\"" ++ joinSep (ofStr "; ") styles ++ ofStr "\">" ++ text ++
    ofStr "</span>"

/-- Replacement for the inline size form; the terminating semicolon is consumed. -/
def inlineSizeRepl (caps : Caps) : List Char :=
  ofStr "<span style=\"font-size: " ++ capGet caps 1 ++ ofStr "rem\">" ++ capGet caps 2 ++
    ofStr "</span>"

/-- Replacement for the superscript form; its template ends with a semicolon. -/
def inlineSupRepl (caps : Caps) : List Char := ofStr "<sup>" ++ capGet caps 1 ++ ofStr "</sup>;"

/-- Replacement for the subscript form; its template ends with a semicolon. -/
def inlineSubRepl (caps : Caps) : List Char := ofStr "<sub>" ++ capGet caps 1 ++ ofStr "</sub>;"

/-- Replacement for the language-span form; its template ends with a semicolon. -/
def inlineLangRepl (caps : Caps) : List Char :=
  ofStr "<span lang=\"" ++ capGet caps 1 ++ ofStr "\">" ++ capGet caps 2 ++ ofStr "</span>;"

/-- Replacement for the abbreviation form; its template ends with a semicolon. -/
def inlineAbbrRepl (caps : Caps) : List Char :=
  ofStr "<abbr title=\"" ++ capGet caps 2 ++ ofStr "\">" ++ capGet caps 1 ++ ofStr "</abbr>;"

/-- Apply inline decoration functions
(`apply_inline_decorations` of `inline_decorations.rs`), in the source's
order: color, size, sup, sub, lang, abbr. -/
def apply_inline_decorations (html : List Char) : List Char :=
  let r1 := replaceAllPure inlineColorRe inlineColorRepl html
  let r2 := replaceAllPure inlineSizeRe inlineSizeRepl r1
  let r3 := replaceAllPure inlineSupRe inlineSupRepl r2
  let r4 := replaceAllPure inlineSubRe inlineSubRepl r3
  let r5 := replaceAllPure inlineLangRe inlineLangRepl r4
  let r6 := replaceAllPure inlineAbbrRe inlineAbbrRepl r5
  r6

/-- Whether any placeholder token opening of any KIND occurs in a string. -/
def hasPlaceholderToken (s : List Char) : Bool :=
  containsSub (ofStr "\x7b\x7bLUKIWIKI_BLOCKQUOTE:") s ||
  containsSub (ofStr "\x7b\x7bBLOCK_DECORATION:") s ||
  containsSub (ofStr "\x7b\x7bINLINE_PLUGIN:") s ||
  containsSub (ofStr "\x7b\x7bBLOCK_PLUGIN:") s

/-- The protect-then-restore round trip with the identity renderer in between. -/
def roundtrip (input : List Char) : List Char :=
  postprocess_conflicts (preprocess_conflicts input).1 (preprocess_conflicts input).2

/-! ## Helper lemmas -/

/-- A list is a prefix of itself followed by anything. -/
theorem isPrefixOf_append_self (l t : List Char) : l.isPrefixOf (l ++ t) = true := by
  induction l with
  | nil => simp [List.isPrefixOf]
  | cons a as ih => simp [List.isPrefixOf, ih]

/-- Every base64 alphabet character avoids the placeholder delimiter characters. -/
theorem b64Char_ok (n : Nat) : b64Char n ≠ lbrace ∧ b64Char n ≠ rbrace ∧ b64Char n ≠ ':' := by
  have hall : ∀ c ∈ b64Alphabet, c ≠ lbrace ∧ c ≠ rbrace ∧ c ≠ ':' := by decide
  unfold b64Char List.getD
  cases h : b64Alphabet.get? n with
  | none => decide
  | some c => simpa using hall c (List.get?_mem h)

/-- Every character of a base64 encoding avoids the placeholder delimiter
characters (the encoding consists only of alphabet characters and padding). -/
theorem base64Encode_ok : ∀ (bytes : List Nat), ∀ c ∈ base64Encode bytes,
    c ≠ lbrace ∧ c ≠ rbrace ∧ c ≠ ':'
  | [] => by simp [base64Encode]
  | [a] => by
    intro c hc
    simp only [base64Encode, List.mem_cons, List.not_mem_nil, or_false] at hc
    rcases hc with rfl | rfl | rfl | rfl
    · exact b64Char_ok _
    · exact b64Char_ok _
    · exact ⟨by decide, by decide, by decide⟩
    · exact ⟨by decide, by decide, by decide⟩
  | [a, b] => by
    intro c hc
    simp only [base64Encode, List.mem_cons, List.not_mem_nil, or_false] at hc
    rcases hc with rfl | rfl | rfl | rfl
    · exact b64Char_ok _
    · exact b64Char_ok _
    · exact b64Char_ok _
    · exact ⟨by decide, by decide, by decide⟩
  | a :: b :: c0 :: rest => by
    intro c hc
    simp only [base64Encode, List.mem_cons] at hc
    rcases hc with rfl | rfl | rfl | rfl | hmem
    · exact b64Char_ok _
    · exact b64Char_ok _
    · exact b64Char_ok _
    · exact b64Char_ok _
    · exact base64Encode_ok rest c hmem

/-! ## Claims -/

/-- C6 (confirmed): protecting and restoring the nested-plugin fixture
`&outer(a)...` yields exactly the outer plugin container whose body carries
the literal substring `&inner` with the ampersand unescaped: nested plugin
syntax survives the base64 round trip and the angle-bracket-only escaping. -/
theorem C6_nested_plugin_survives :
    roundtrip (ofStr "&outer(a)\x7btext &inner(b)\x7bnested\x7d; more\x7d;") =
      ofStr "<span class=\"plugin-outer\" data-args=\"a\">text &inner(b)\x7bnested\x7d; more</span>" ∧
    containsSub (ofStr "&inner")
      (roundtrip (ofStr "&outer(a)\x7btext &inner(b)\x7bnested\x7d; more\x7d;")) = true := by
  constructor
  · decide
  · decide

/-- C7 (confirmed): the compound decoration fixture produces exactly one
paragraph with class list `text-center fs-4 text-primary`, and in general the
class list of a decoration is assembled in the fixed order alignment,
truncate, vertical-align, size, foreground, background. -/
theorem C7_compound_decoration_order :
    apply_block_decorations (ofStr "SIZE(1.5): COLOR(primary): CENTER: Styled text") =
      ofStr "<p class=\"text-center fs-4 text-primary\">Styled text</p>" ∧
    ∀ (a v sz f b : List Char) (t : Bool),
      (BlockDecoration.mk (some (ofStr "text-" ++ f)) (some (ofStr "bg-" ++ b))
          (some (ofStr "fs-" ++ sz)) (some a) t (some v)).classList =
        [a] ++ (if t then [ofStr "text-truncate"] else []) ++ [v] ++
          [ofStr "fs-" ++ sz] ++ [ofStr "text-" ++ f] ++ [ofStr "bg-" ++ b] := by
  constructor
  · decide
  · intro a v sz f b t
    simp [BlockDecoration.classList, isPrefixOf_append_self]

/-- C8 (confirmed): a color component that is empty or the literal `inherit`
is dropped entirely, and the `COLOR(,inherit): text` fixture renders as a bare
unattributed paragraph. -/
theorem C8_inherit_suppression :
    apply_block_decorations (ofStr "COLOR(,inherit): text") = ofStr "<p>text</p>" ∧
    ∀ (v : List Char) (b : Bool),
      (rustTrim v = [] ∨ rustTrim v = ofStr "inherit") → map_color v b = none := by
  constructor
  · decide
  · intro v b h
    cases h with
    | inl h => simp [map_color, h]
    | inr h => simp [map_color, h]

/-- C8 witness: the general clause applied at the concrete component ` inherit `. -/
theorem C8_inherit_suppression_witness :
    map_color (ofStr " inherit ") true = none :=
  C8_inherit_suppression.2 (ofStr " inherit ") true (Or.inr (by decide))

/-- C9 (confirmed): when a plugin token's encoded-content field is not valid
base64 (or decodes to non-UTF-8 bytes), restoration totally (without any
panic path) falls back to the raw encoded string and emits the plugin
container around it. -/
theorem C9_base64_fallback (fname args enc : List Char)
    (h : (base64Decode enc).bind utf8Decode = none) :
    decodePluginContent enc = enc ∧
    inlinePluginHtml fname args enc =
      ofStr "<span class=\"plugin-" ++ fname ++ ofStr "\" data-args=\"" ++
        encode_double_quoted_attribute args ++ ofStr "\">" ++ escapeLtGt enc ++
        ofStr "</span>" ∧
    blockPluginHtml fname args enc =
      ofStr "<div class=\"plugin-" ++ fname ++ ofStr "\" data-args=\"" ++
        encode_double_quoted_attribute args ++ ofStr "\">" ++ escapeLtGt enc ++
        ofStr "</div>" := by
  have hd : decodePluginContent enc = enc := by simp [decodePluginContent, h]
  exact ⟨hd, by simp [inlinePluginHtml, hd], by simp [blockPluginHtml, hd]⟩

/-- C9 witness: the fallback at the malformed field `!!!`, together with the
full post-pass emitting the container with the raw field. -/
theorem C9_base64_fallback_witness :
    ((base64Decode (ofStr "!!!")).bind utf8Decode = none) ∧
    decodePluginContent (ofStr "!!!") = ofStr "!!!" ∧
    postprocess_conflicts (ofStr "\x7b\x7bINLINE_PLUGIN:f:a:!!!:INLINE_PLUGIN\x7d\x7d")
        emptyHeaderMap =
      ofStr "<span class=\"plugin-f\" data-args=\"a\">!!!</span>" :=
  ⟨by decide, (C9_base64_fallback (ofStr "f") (ofStr "a") (ofStr "!!!") (by decide)).1, by decide⟩

/-- C10 (confirmed): the sup, sub, lang and abbr rewrites keep the terminating
semicolon after the emitted element (their replacement templates end with one),
while the color and size rewrites consume it (their replacements end at the
closing span tag); shown both at the replacement level and end to end. -/
theorem C10_semicolon_retention :
    (∀ t : List Char, inlineSupRepl (setCap 1 t []) = ofStr "<sup>" ++ t ++ ofStr "</sup>;") ∧
    (∀ t : List Char, inlineSubRepl (setCap 1 t []) = ofStr "<sub>" ++ t ++ ofStr "</sub>;") ∧
    (∀ sz t : List Char, inlineSizeRepl (setCap 2 t (setCap 1 sz [])) =
      ofStr "<span style=\"font-size: " ++ sz ++ ofStr "rem\">" ++ t ++ ofStr "</span>") ∧
    apply_inline_decorations (ofStr "x&sup(2);") = ofStr "x<sup>2</sup>;" ∧
    apply_inline_decorations (ofStr "H&sub(2);O") = ofStr "H<sub>2</sub>;O" ∧
    apply_inline_decorations (ofStr "&lang(en)\x7bHello\x7d;") =
      ofStr "<span lang=\"en\">Hello</span>;" ∧
    apply_inline_decorations (ofStr "&abbr(HTML)\x7bHyperText Markup Language\x7d;") =
      ofStr "<abbr title=\"HyperText Markup Language\">HTML</abbr>;" ∧
    apply_inline_decorations (ofStr "&color(red)\x7bred text\x7d;") =
      ofStr "<span style=\"color: red\">red text</span>" ∧
    apply_inline_decorations (ofStr "&size(1.5)\x7blarger\x7d;") =
      ofStr "<span style=\"font-size: 1.5rem\">larger</span>" := by
  refine ⟨fun t => rfl, fun t => rfl, fun sz t => rfl, ?_, ?_, ?_, ?_, ?_, ?_⟩
  · decide
  · decide
  · decide
  · decide
  · decide
  · decide

/-- C1 counterexample: the balanced, correctly-formed block-decoration line
`COLOR(red): text` leaves a surviving BLOCK_DECORATION placeholder under the
identity renderer, because the restoration pattern demands the renderer's
paragraph wrapper around the token. -/
theorem C1_counterexample :
    roundtrip (ofStr "COLOR(red): text") =
      ofStr "\x7b\x7bBLOCK_DECORATION:COLOR(red): text:BLOCK_DECORATION\x7d\x7d" ∧
    hasPlaceholderToken (roundtrip (ofStr "COLOR(red): text")) = true := by
  constructor
  · decide
  · decide

/-- C1 (corrected): under the identity renderer, block-decoration placeholders
survive post-processing; for balanced wiki syntax of the remaining kinds —
a wiki blockquote, an inline plugin, a single-line block plugin and a
multiline block plugin — the protect-then-restore composition leaves no
placeholder token of any kind in the output. -/
theorem C1_no_surviving_tokens :
    hasPlaceholderToken (roundtrip (ofStr "> q <")) = false ∧
    roundtrip (ofStr "> q <") = ofStr "<blockquote class=\"lukiwiki\">q</blockquote>" ∧
    hasPlaceholderToken (roundtrip (ofStr "&f(a)\x7bx\x7d;")) = false ∧
    roundtrip (ofStr "&f(a)\x7bx\x7d;") = ofStr "<span class=\"plugin-f\" data-args=\"a\">x</span>" ∧
    hasPlaceholderToken (roundtrip (ofStr "@f(a)\x7bx\x7d")) = false ∧
    roundtrip (ofStr "@f(a)\x7bx\x7d") = ofStr "<div class=\"plugin-f\" data-args=\"a\">x</div>" ∧
    hasPlaceholderToken (roundtrip (ofStr "@f(a)\x7b\x7bx\ny\x7d\x7d")) = false ∧
    roundtrip (ofStr "@f(a)\x7b\x7bx\ny\x7d\x7d") =
      ofStr "<div class=\"plugin-f\" data-args=\"a\">x\ny</div>" := by
  refine ⟨?_, ?_, ?_, ?_, ?_, ?_, ?_, ?_⟩ <;> decide

/-- C2 counterexample: the plugin invocation `&f(a:b){x};` is emitted with the
raw argument string `a:b` inside the token, so an unescaped colon sits in a
payload field; the extra delimiter then prevents the post-pass from ever
consuming the token. -/
theorem C2_counterexample :
    (preprocess_conflicts (ofStr "&f(a:b)\x7bx\x7d;")).1 =
      ofStr "\x7b\x7bINLINE_PLUGIN:f:a:b:eA==:INLINE_PLUGIN\x7d\x7d" ∧
    postprocess_conflicts (ofStr "\x7b\x7bINLINE_PLUGIN:f:a:b:eA==:INLINE_PLUGIN\x7d\x7d")
        emptyHeaderMap =
      ofStr "\x7b\x7bINLINE_PLUGIN:f:a:b:eA==:INLINE_PLUGIN\x7d\x7d" := by
  constructor
  · decide
  · decide

/-- C2 (corrected): only the content payload field of a plugin token is
base64-encoded — its characters never include a brace or a colon — while the
function and argument fields are carried verbatim, so only delimiter-free
arguments keep the token well formed; a plugin with delimiter-free args
restores cleanly end to end. -/
theorem C2_content_field_base64 :
    (∀ fname args content : List Char,
      inlinePluginToken fname args content =
        ofStr "\x7b\x7bINLINE_PLUGIN:" ++ fname ++ ofStr ":" ++ args ++ ofStr ":" ++
          base64Encode (strBytes content) ++ ofStr ":INLINE_PLUGIN\x7d\x7d" ∧
      blockPluginToken fname args content =
        ofStr "\x7b\x7bBLOCK_PLUGIN:" ++ fname ++ ofStr ":" ++ args ++ ofStr ":" ++
          base64Encode (strBytes content) ++ ofStr ":BLOCK_PLUGIN\x7d\x7d") ∧
    (∀ content : List Char, ∀ c ∈ base64Encode (strBytes content),
      c ≠ lbrace ∧ c ≠ rbrace ∧ c ≠ ':') ∧
    roundtrip (ofStr "&g(w)\x7by\x7d;") = ofStr "<span class=\"plugin-g\" data-args=\"w\">y</span>" := by
  refine ⟨fun fname args content => ⟨rfl, rfl⟩,
    fun content c hc => base64Encode_ok (strBytes content) c hc, ?_⟩
  decide

/-- C2 witness: the base64 clause applied at the concrete content `x`, whose
encoding `eA==` starts with the alphabet character `e`. -/
theorem C2_content_field_base64_witness :
    ('e' ∈ base64Encode (strBytes (ofStr "x"))) ∧
    ('e' ≠ lbrace ∧ 'e' ≠ rbrace ∧ 'e' ≠ ':') :=
  ⟨by decide, C2_content_field_base64.2.1 (ofStr "x") 'e' (by decide)⟩

/-- C3 counterexample: in `# A` followed by `## B {#bid}` the explicit id of
the second heading of the document is recorded under key 1 — the counter
counts only id-bearing headings — so nothing is keyed under the document-wide
occurrence index 2, and the post-pass then pins the anchor `bid` onto the
first rendered heading instead of the second. -/
theorem C3_counterexample :
    (preprocess_conflicts (ofStr "# A\n\n## B \x7b#bid\x7d")).2 =
      (⟨[(1, ofStr "bid")]⟩ : HeaderIdMap) ∧
    HeaderIdMap.find ⟨[(1, ofStr "bid")]⟩ 2 = none ∧
    postprocess_conflicts (ofStr "<h1>A</h1>\n<h2>B</h2>") ⟨[(1, ofStr "bid")]⟩ =
      ofStr "<h1><a href=\"#bid\" aria-hidden=\"true\" class=\"anchor\" id=\"bid\"></a>A</h1>\n<h2><a href=\"#heading-2\" aria-hidden=\"true\" class=\"anchor\" id=\"heading-2\"></a>B</h2>" := by
  refine ⟨?_, ?_, ?_⟩ <;> decide

/-- C3 (corrected): the map keys each explicit id under its 1-based index
among the id-bearing headings only; on the spec's fixture, where the only
explicit id sits on the first heading, the two counting schemes agree and the
anchors come out as `first` and the positional fallback `heading-2`. -/
theorem C3_heading_id_fixture :
    (preprocess_conflicts (ofStr "# First \x7b#first\x7d\n\n## Second")).2 =
      (⟨[(1, ofStr "first")]⟩ : HeaderIdMap) ∧
    (preprocess_conflicts (ofStr "# First \x7b#first\x7d\n\n## Second")).1 =
      ofStr "# First\n## Second" ∧
    postprocess_conflicts (ofStr "<h1>First</h1>\n<h2>Second</h2>") ⟨[(1, ofStr "first")]⟩ =
      ofStr "<h1><a href=\"#first\" aria-hidden=\"true\" class=\"anchor\" id=\"first\"></a>First</h1>\n<h2><a href=\"#heading-2\" aria-hidden=\"true\" class=\"anchor\" id=\"heading-2\"></a>Second</h2>" := by
  refine ⟨?_, ?_, ?_⟩ <;> decide

/-- C4 counterexample: the line `><` begins with the opening sign and ends
with the closing sign yet is left untouched (the pattern demands nonempty
content), and the line `> &f(a){x};` begins with the opening sign without a
closing sign yet is not byte-identical after the pre-pass, because the inline
plugin inside it is still protected. -/
theorem C4_counterexample :
    (preprocess_conflicts (ofStr "><")).1 = ofStr "><" ∧
    (preprocess_conflicts (ofStr "> &f(a)\x7bx\x7d;")).1 =
      ofStr "> \x7b\x7bINLINE_PLUGIN:f:a:eA==:INLINE_PLUGIN\x7d\x7d" := by
  constructor
  · decide
  · decide

/-- C4 (corrected): a single line opened by the greater-than sign and closed
by the less-than sign with nonempty content in between is wrapped and restored
as a LukiWiki blockquote element; a line opened by the greater-than sign with
no closing sign is left untouched by the blockquote stage (and byte-identical
overall when it contains no other wiki form). -/
theorem C4_blockquote_disambiguation :
    roundtrip (ofStr "> quote <") = ofStr "<blockquote class=\"lukiwiki\">quote</blockquote>" ∧
    (preprocess_conflicts (ofStr "> quote <")).1 =
      ofStr "\x7b\x7bLUKIWIKI_BLOCKQUOTE:quote:LUKIWIKI_BLOCKQUOTE\x7d\x7d" ∧
    (preprocess_conflicts (ofStr "> quote\n> more")).1 = ofStr "> quote\n> more" := by
  refine ⟨?_, ?_, ?_⟩ <;> decide

/-- C5 counterexample: `<h1>T</h1>` contains none of the wiki-specific
prefixes or sigils the claim lists, and the pre-pass does leave it unchanged,
yet the post-pass injects a heading anchor, so the round trip is not the
identity on it. -/
theorem C5_counterexample :
    (preprocess_conflicts (ofStr "<h1>T</h1>")).1 = ofStr "<h1>T</h1>" ∧
    postprocess_conflicts (ofStr "<h1>T</h1>") emptyHeaderMap =
      ofStr "<h1><a href=\"#heading-1\" aria-hidden=\"true\" class=\"anchor\" id=\"heading-1\"></a>T</h1>" ∧
    postprocess_conflicts (ofStr "<h1>T</h1>") emptyHeaderMap ≠ ofStr "<h1>T</h1>" := by
  refine ⟨?_, ?_, ?_⟩ <;> decide

/-- C5 (corrected): for ASCII input — where the embedded character classes
coincide with the source's Unicode-aware ones, so a no-match hypothesis on an
embedded pattern means the program's pattern has no match either — on which
none of the pre-pass patterns (heading ids, wiki blockquotes, decoration
prefixes, plugin forms) and none of the post-pass patterns (rendered headings,
placeholder markers, paragraph-wrapped plugin containers) have a match, the
pre-pass is the identity producing an empty heading map and the post-pass is
the identity, so the whole round trip with a no-op renderer returns the input
unchanged. -/
theorem C5_identity_on_plain_text (s : List Char)
    (_hascii : asciiOnly s)
    (h1 : findIn customHeaderRe s = none)
    (h2 : findIn lukiwikiBlockquoteRe s = none)
    (h3 : findIn colorPrefixRe s = none)
    (h4 : findIn sizePrefixRe s = none)
    (h5 : findIn alignPrefixRe s = none)
    (h6 : findIn inlinePluginRe s = none)
    (h7 : findIn blockPluginMultiRe s = none)
    (h8 : findIn blockPluginSingleRe s = none)
    (h9 : findIn headerRe s = none)
    (h10 : findIn bqMarkerRe s = none)
    (h11 : findIn decoMarkerRe s = none)
    (h12 : findIn inlineMarkerRe s = none)
    (h13 : findIn blockMarkerRe s = none)
    (h14 : findIn wrappedPluginRe s = none) :
    preprocess_conflicts s = (s, emptyHeaderMap) ∧
    postprocess_conflicts s emptyHeaderMap = s := by
  constructor
  · simp [preprocess_conflicts, replaceAllSt_none _ _ _ _ h1,
      replaceAllPure_none _ _ _ h2, replaceAllPure_none _ _ _ h3,
      replaceAllPure_none _ _ _ h4, replaceAllPure_none _ _ _ h5,
      replaceAllPure_none _ _ _ h6, replaceAllPure_none _ _ _ h7,
      replaceAllPure_none _ _ _ h8, emptyHeaderMap]
  · simp [postprocess_conflicts, replaceAllSt_none _ _ _ _ h9,
      replaceAllPure_none _ _ _ h10, replaceAllPure_none _ _ _ h11,
      replaceAllPure_none _ _ _ h12, replaceAllPure_none _ _ _ h13,
      replaceAllPure_none _ _ _ h14]

/-- C5 witness: the identity round trip at a concrete ASCII plain paragraph. -/
theorem C5_identity_on_plain_text_witness :
    preprocess_conflicts (ofStr "Just a plain paragraph.") =
      (ofStr "Just a plain paragraph.", emptyHeaderMap) ∧
    postprocess_conflicts (ofStr "Just a plain paragraph.") emptyHeaderMap =
      ofStr "Just a plain paragraph." :=
  C5_identity_on_plain_text (ofStr "Just a plain paragraph.") (by decide)
    (by decide) (by decide) (by decide) (by decide) (by decide) (by decide) (by decide)
    (by decide) (by decide) (by decide) (by decide) (by decide) (by decide) (by decide)

end UMark
